import Mathlib

/-!
Shallow embedding of moto's ServiceCatalog backend
(src/moto/servicecatalog/models.py and src/moto/servicecatalog/exceptions.py).

Python `dict`s (insertion-ordered) are modelled as association lists
`List (String × α)`: inserting under an existing key updates the value in
place, inserting under a new key appends.  Random identifier generation and
wall-clock timestamps are external inputs in the source (`mock_random`,
`unix_time`); operations here take the freshly generated identifiers and the
current time as explicit arguments.  The Stack Provisioner
(`create_cloudformation_stack_from_template`), the Template Loader
(`get_stack_from_s3_url`) and the Tag Store (`TaggingService`) are external
collaborators and are passed in as function arguments resp. modelled as an
append-only log.  Python exceptions are modelled with `Except`; every
state-mutating operation returns the backend state as it stands at the point
of the raise, so that "state unchanged on failure" is a real statement about
the embedding, not a modelling artefact.
-/

namespace ServiceCatalog

/-- Python dict membership test on an association list. -/
def hasKey (k : String) (l : List (String × α)) : Bool :=
  l.any (fun kv => kv.1 == k)

/-- Python dict lookup `d[k]` / `d.get(k)` on an association list. -/
def dget? (k : String) (l : List (String × α)) : Option α :=
  (l.find? (fun kv => kv.1 == k)).map (fun kv => kv.2)

/-- Python dict assignment `d[k] = v`: update in place when the key exists,
append otherwise (insertion order is preserved). -/
def dinsert (k : String) (v : α) (l : List (String × α)) : List (String × α) :=
  if hasKey k l then l.map (fun kv => if kv.1 == k then (k, v) else kv)
  else l ++ [(k, v)]

/-- One stack output triple returned by the Stack Provisioner collaborator. -/
structure StackOutput where
  key : String
  value : String
  description : String
deriving Repr, DecidableEq

/-- Result of `create_cloudformation_stack_from_template` (external). -/
structure Stack where
  stack_id : String
  stack_outputs : List StackOutput
deriving Repr, DecidableEq

/-- `LaunchPath` of models.py: one per portfolio. -/
structure LaunchPath where
  path_id : String
  created_time : Nat
  updated_time : Nat
  name : String
deriving Repr, DecidableEq

/-- `Portfolio` of models.py.  `tags` live in the backend's tag store, keyed
by `arn`. -/
structure Portfolio where
  portfolio_id : String
  region : String
  arn : String
  created_date : Nat
  accept_language : String
  display_name : String
  description : String
  provider_name : String
  idempotency_token : String
  product_ids : List String
  launch_path : LaunchPath
deriving Repr, DecidableEq

/-- `ProvisioningArtifact` of models.py.  `description` is `Option` because
`create_product` passes `provisioning_artifact_parameters.get("Description")`,
which is `None` when the key is missing. -/
structure ProvisioningArtifact where
  provisioning_artifact_id : String
  region : String
  active : Bool
  created_date : Nat
  description : Option String
  guidance : String
  name : String
  source_revision : String
  artifact_type : String
  template : String
deriving Repr, DecidableEq

/-- `Product` of models.py. -/
structure Product where
  product_view_summary_id : String
  product_id : String
  region : String
  arn : String
  created_time : Nat
  accept_language : String
  name : String
  description : String
  owner : String
  product_type : String
  distributor : String
  support_email : String
  support_url : String
  support_description : String
  source_connection : String
  provisioning_artifacts : List (String × ProvisioningArtifact)
  status : String
deriving Repr, DecidableEq

/-- `Constraint` of models.py. -/
structure Constraint where
  constraint_id : String
  created_time : Nat
  updated_time : Nat
  constraint_type : String
  description : String
  owner : String
  product_id : String
  portfolio_id : String
  parameters : String
deriving Repr, DecidableEq

/-- `Record` of models.py.  `record_errors` and `record_tags` are always
empty lists in the source; they are kept as fields for faithfulness. -/
structure Record where
  record_id : String
  region : String
  created_time : Nat
  updated_time : Nat
  product_id : String
  provisioned_product_id : String
  path_id : String
  provisioned_product_name : String
  provisioned_product_type : String
  provisioning_artifact_id : String
  record_type : String
  record_errors : List String
  record_tags : List (String × String)
  status : String
  arn : String
deriving Repr, DecidableEq

/-- `ProvisionedProduct` of models.py. -/
structure ProvisionedProduct where
  provisioned_product_id : String
  region : String
  name : String
  arn : String
  created_time : Nat
  updated_time : Nat
  accept_language : String
  record_type : String
  product_id : String
  provisioning_artifact_id : String
  path_id : String
  launch_role_arn : String
  last_record_id : Option String
  last_provisioning_record_id : Option String
  last_successful_provisioning_record_id : Option String
  stack_id : String
  stack_outputs : List StackOutput
  status : String
deriving Repr, DecidableEq

/-- The errors raised by the backend.  The first five mirror
exceptions.py constructor payloads; the last three model Python runtime
errors that the source can raise (an unbound local variable, an attribute
access on `None`, a missing dict key) and the bare `Exception("TODO")` in
`get_last_record_for_provisioned_product`. -/
inductive ScErr where
  /-- `ProductNotFound(product_id=...)`: payload is the single
  `identifier or name` string (no indication which one was used). -/
  | productNotFound (product_id : String)
  /-- `PortfolioNotFound(identifier=..., identifier_name=...)`. -/
  | portfolioNotFound (identifier : String) (identifier_name : String)
  /-- Modelled from the spec: `ProvisionedProductNotFound` is imported by
  models.py but missing from src exceptions.py; per its call sites and the
  spec's NotFound description it mirrors `PortfolioNotFound`, carrying an
  identifier and which of Name/Id was used. -/
  | provisionedProductNotFound (identifier : String) (identifier_name : String)
  /-- Modelled from the spec: `RecordNotFound` is imported by models.py but
  missing from src exceptions.py; it carries the record identifier. -/
  | recordNotFound (identifier : String)
  /-- `InvalidParametersException(message=...)`. -/
  | invalidParameters (message : String)
  /-- Python `UnboundLocalError` for the named local variable. -/
  | unboundLocalError (var : String)
  /-- Python `AttributeError`: attribute access on a `None` value. -/
  | noneAttributeError (attr : String)
  /-- Python `KeyError` on a dict subscript. -/
  | pyKeyError (key : String)
  /-- `raise Exception("TODO")`. -/
  | todoException
  /-- A failure propagated out of the external Stack Provisioner. -/
  | stackProvisionerError (message : String)
deriving Repr, DecidableEq

/-- `ServiceCatalogBackend` state: the five entity collections plus the
tag store (modelled as an append-only log of `tag_resource` calls). -/
structure Backend where
  region_name : String
  account_id : String
  portfolios : List (String × Portfolio)
  products : List (String × Product)
  provisioned_products : List (String × ProvisionedProduct)
  records : List (String × Record)
  constraints : List (String × Constraint)
  tagger : List (String × List (String × String))
deriving Repr, DecidableEq

/-- `ServiceCatalogBackend.tag_resource` (delegates to the external Tag
Store; modelled as appending to the log). -/
def Backend.tag_resource (b : Backend) (resource_arn : String)
    (tags : List (String × String)) : Backend :=
  { b with tagger := b.tagger ++ [(resource_arn, tags)] }

/-- `ServiceCatalogBackend.get_tags`: the tags recorded for an ARN. -/
def Backend.get_tags (b : Backend) (resource_id : String) :
    List (String × String) :=
  ((b.tagger.filter (fun kv => kv.1 == resource_id)).map
    (fun kv => kv.2)).flatten

/-- Python truthiness-based `identifier or name` on strings
(the empty string is falsy). -/
def strOr (identifier name : String) : String :=
  if identifier == "" then name else identifier

/-- `ServiceCatalogBackend._get_product`: direct map hit on `identifier`,
else first product (in insertion order) whose `name` matches, else
`ProductNotFound(identifier or name)`. -/
def Backend._get_product (b : Backend) (identifier name : String) :
    Except ScErr Product :=
  match dget? identifier b.products with
  | some product => .ok product
  | none =>
    match b.products.find? (fun kv => kv.2.name == name) with
    | some kv => .ok kv.2
    | none => .error (.productNotFound (strOr identifier name))

/-- `ServiceCatalogBackend._get_portfolio`: direct map hit on `identifier`,
else first portfolio whose `display_name` matches, else
`PortfolioNotFound(identifier or name, "Name" if name else "Id")`. -/
def Backend._get_portfolio (b : Backend) (identifier name : String) :
    Except ScErr Portfolio :=
  match dget? identifier b.portfolios with
  | some portfolio => .ok portfolio
  | none =>
    match b.portfolios.find? (fun kv => kv.2.display_name == name) with
    | some kv => .ok kv.2
    | none =>
      .error (.portfolioNotFound (strOr identifier name)
        (if name != "" then "Name" else "Id"))

/-- `ServiceCatalogBackend._get_provisioned_product`: direct map hit on
`identifier`, else first provisioned product whose `name` matches, else
`ProvisionedProductNotFound(identifier or name, "Name" if name else "Id")`. -/
def Backend._get_provisioned_product (b : Backend) (identifier name : String) :
    Except ScErr ProvisionedProduct :=
  match dget? identifier b.provisioned_products with
  | some provisioned_product => .ok provisioned_product
  | none =>
    match b.provisioned_products.find? (fun kv => kv.2.name == name) with
    | some kv => .ok kv.2
    | none =>
      .error (.provisionedProductNotFound (strOr identifier name)
        (if name != "" then "Name" else "Id"))

/-- `Portfolio.link_product`: append the product id unless already linked. -/
def Portfolio.link_product (p : Portfolio) (product_id : String) : Portfolio :=
  if product_id ∈ p.product_ids then p
  else { p with product_ids := p.product_ids ++ [product_id] }

/-- `Portfolio.has_product`. -/
def Portfolio.has_product (p : Portfolio) (product_id : String) : Bool :=
  p.product_ids.contains product_id

/-- `Product.get_provisioning_artifact`: direct map hit on `artifact_id`,
else first artifact whose `name` matches `artifact_name`, else `None`. -/
def Product.get_provisioning_artifact (p : Product)
    (artifact_id artifact_name : String) : Option ProvisioningArtifact :=
  match dget? artifact_id p.provisioning_artifacts with
  | some artifact => some artifact
  | none =>
    match p.provisioning_artifacts.find?
        (fun kv => kv.2.name == artifact_name) with
    | some kv => some kv.2
    | none => none

/-- `Constraint.to_summary_json`.  The JSON key `Type` is rendered as the
field `Type'` (`Type` is a Lean keyword). -/
structure ConstraintSummaryJson where
  Type' : String
  Description : String
deriving Repr, DecidableEq

def Constraint.to_summary_json (c : Constraint) : ConstraintSummaryJson :=
  { Type' := c.constraint_type, Description := c.description }

/-- `Constraint.to_create_constraint_json`. -/
structure CreateConstraintJson where
  ConstraintId : String
  Type' : String
  Description : String
  Owner : String
  ProductId : String
  PortfolioId : String
deriving Repr, DecidableEq

def Constraint.to_create_constraint_json (c : Constraint) :
    CreateConstraintJson :=
  { ConstraintId := c.constraint_id, Type' := c.constraint_type,
    Description := c.description, Owner := c.owner,
    ProductId := c.product_id, PortfolioId := c.portfolio_id }

/-- One entry of `list_launch_paths`' result: `LaunchPath.to_json()` (the
`Id` key) with `Name` and `ConstraintSummaries` added by the backend. -/
structure LaunchPathSummaryJson where
  Id : String
  Name : String
  ConstraintSummaries : List ConstraintSummaryJson
deriving Repr, DecidableEq

/-- `Record.to_record_detail_json`. -/
structure RecordDetailJson where
  RecordId : String
  CreatedTime : Nat
  UpdatedTime : Nat
  ProvisionedProductId : String
  PathId : String
  RecordErrors : List String
  ProductId : String
  RecordType : String
  ProvisionedProductName : String
  ProvisioningArtifactId : String
  RecordTags : List (String × String)
  Status : String
  ProvisionedProductType : String
deriving Repr, DecidableEq

def Record.to_record_detail_json (r : Record) : RecordDetailJson :=
  { RecordId := r.record_id, CreatedTime := r.created_time,
    UpdatedTime := r.updated_time,
    ProvisionedProductId := r.provisioned_product_id, PathId := r.path_id,
    RecordErrors := r.record_errors, ProductId := r.product_id,
    RecordType := r.record_type,
    ProvisionedProductName := r.provisioned_product_name,
    ProvisioningArtifactId := r.provisioning_artifact_id,
    RecordTags := r.record_tags, Status := r.status,
    ProvisionedProductType := r.provisioned_product_type }

/-- `ProvisionedProduct.to_provisioned_product_detail_json`.  `Tags` is
`none` unless `include_tags` was set. -/
structure ProvisionedProductDetailJson where
  Arn : String
  CreatedTime : Nat
  Id : String
  IdempotencyToken : String
  LastProvisioningRecordId : Option String
  LastRecordId : Option String
  LastSuccessfulProvisioningRecordId : Option String
  LaunchRoleArn : String
  Name : String
  ProductId : String
  ProvisioningArtifactId : String
  Status : String
  StatusMessage : String
  Type' : String
  Tags : Option (List (String × String))
deriving Repr, DecidableEq

def ProvisionedProduct.to_provisioned_product_detail_json
    (p : ProvisionedProduct) (b : Backend) (include_tags : Bool) :
    ProvisionedProductDetailJson :=
  { Arn := p.arn, CreatedTime := p.created_time,
    Id := p.provisioned_product_id, IdempotencyToken := "string",
    LastProvisioningRecordId := p.last_provisioning_record_id,
    LastRecordId := p.last_record_id,
    LastSuccessfulProvisioningRecordId :=
      p.last_successful_provisioning_record_id,
    LaunchRoleArn := p.launch_role_arn, Name := p.name,
    ProductId := p.product_id,
    ProvisioningArtifactId := p.provisioning_artifact_id,
    Status := "AVAILABLE", StatusMessage := "string", Type' := p.record_type,
    Tags := if include_tags then some (b.get_tags p.arn) else none }

/-- `Product.to_product_view_detail_json`'s nested `ProductViewSummary`. -/
structure ProductViewSummaryJson where
  Id : String
  ProductId : String
  Name : String
  Owner : String
  ShortDescription : String
  Type' : String
  Distributor : String
  SupportEmail : String
  SupportUrl : String
  SupportDescription : String
deriving Repr, DecidableEq

/-- `Product.to_product_view_detail_json`. -/
structure ProductViewDetailJson where
  ProductARN : String
  CreatedTime : Nat
  ProductViewSummary : ProductViewSummaryJson
  Status : String
deriving Repr, DecidableEq

def Product.to_product_view_detail_json (p : Product) :
    ProductViewDetailJson :=
  { ProductARN := p.arn, CreatedTime := p.created_time,
    ProductViewSummary :=
      { Id := p.product_view_summary_id, ProductId := p.product_id,
        Name := p.name, Owner := p.owner, ShortDescription := p.description,
        Type' := p.product_type, Distributor := p.distributor,
        SupportEmail := p.support_email, SupportUrl := p.support_url,
        SupportDescription := p.support_description },
    Status := p.status }

/-- `ProvisioningArtifact.to_provisioning_artifact_detail_json`. -/
structure ProvisioningArtifactDetailJson where
  CreatedTime : Nat
  Active : Bool
  Id : String
  Description : Option String
  Name : String
  Type' : String
  Guidance : String
deriving Repr, DecidableEq

def ProvisioningArtifact.to_provisioning_artifact_detail_json
    (a : ProvisioningArtifact) : ProvisioningArtifactDetailJson :=
  { CreatedTime := a.created_date, Active := a.active,
    Id := a.provisioning_artifact_id, Description := a.description,
    Name := a.name, Type' := a.artifact_type, Guidance := "DEFAULT" }

/-- `ServiceCatalogBackend.create_portfolio`.  `fresh_portfolio_id`,
`fresh_path_id` stand for the two random identifiers drawn in
`Portfolio.__init__` / `LaunchPath.__init__`; `now` is `unix_time()`.
The duplicate-name check re-raises `InvalidParametersException` out of the
`try` block (it is not a `PortfolioNotFound`, so the `except` does not
swallow it); on that path nothing has been stored yet. -/
def Backend.create_portfolio (b : Backend)
    (accept_language display_name description provider_name : String)
    (tags : List (String × String)) (idempotency_token : String)
    (fresh_portfolio_id fresh_path_id : String) (now : Nat) :
    Backend × Except ScErr (Portfolio × List (String × String)) :=
  match b._get_portfolio "" display_name with
  | .ok _ =>
    (b, .error (.invalidParameters "Portfolio with this name already exists"))
  | .error _ =>
    let arn := "arn:aws:servicecatalog:" ++ b.region_name ++ ":"
      ++ b.account_id ++ ":portfolio/" ++ fresh_portfolio_id
    let portfolio : Portfolio :=
      { portfolio_id := fresh_portfolio_id, region := b.region_name,
        arn := arn, created_date := now, accept_language := accept_language,
        display_name := display_name, description := description,
        provider_name := provider_name,
        idempotency_token := idempotency_token, product_ids := [],
        launch_path :=
          { path_id := fresh_path_id, created_time := now,
            updated_time := now, name := "LP?" } }
    let b1 := b.tag_resource arn tags
    let b2 := { b1 with
      portfolios := dinsert portfolio.portfolio_id portfolio b1.portfolios }
    (b2, .ok (portfolio, b2.get_tags arn))

/-- The `provisioning_artifact_parameters` dict of `create_product`:
`Name` and `Info` are accessed with `[...]` (required), `Description` and
`Type` with `.get`. -/
structure ProvisioningArtifactParameters where
  Name : String
  Description : Option String
  Type' : Option String
  Info : List (String × String)
deriving Repr, DecidableEq

/-- `Product._create_provisioning_artifact`.  When `info` lacks the key
`LoadTemplateFromURL` the source only emits `warnings.warn(...)`, leaving the
local variable `template` unassigned; the subsequent
`ProvisioningArtifact(..., template=template)` then raises
`UnboundLocalError` at runtime.  `templateLoader` stands for the external
`get_stack_from_s3_url`. -/
def Product._create_provisioning_artifact (p : Product)
    (templateLoader : String → String) (name : String)
    (description : Option String) (artifact_type : String)
    (info : List (String × String)) (fresh_artifact_id : String) (now : Nat) :
    Except ScErr (Product × ProvisioningArtifact) :=
  let template? : Option String :=
    match dget? "LoadTemplateFromURL" info with
    | some template_url => some (templateLoader template_url)
    | none => none
  match template? with
  | none => .error (.unboundLocalError "template")
  | some template =>
    let provisioning_artifact : ProvisioningArtifact :=
      { provisioning_artifact_id := fresh_artifact_id, region := p.region,
        active := true, created_date := now, description := description,
        guidance := "DEFAULT", name := name, source_revision := "",
        artifact_type := artifact_type, template := template }
    let artifacts' := dinsert provisioning_artifact.provisioning_artifact_id
      provisioning_artifact p.provisioning_artifacts
    .ok ({ p with provisioning_artifacts := artifacts' },
      provisioning_artifact)

/-- `ServiceCatalogBackend.create_product`.  The `Product` is constructed
(which tags its ARN) before `_create_provisioning_artifact` runs, and the
product is stored in `self.products` only after the artifact was created;
on an artifact failure the products map is unchanged but the tag-store call
has already happened, exactly as in the source. -/
def Backend.create_product (b : Backend) (templateLoader : String → String)
    (accept_language name owner description distributor support_description
      support_email support_url product_type : String)
    (tags : List (String × String))
    (provisioning_artifact_parameters : ProvisioningArtifactParameters)
    (idempotency_token source_connection : String)
    (fresh_summary_id fresh_product_id fresh_artifact_id : String)
    (now : Nat) :
    Backend × Except ScErr
      (ProductViewDetailJson × ProvisioningArtifactDetailJson
        × List (String × String)) :=
  match b._get_product "" name with
  | .ok _ =>
    (b, .error (.invalidParameters "Product with this name already exists"))
  | .error _ =>
    let arn := "arn:aws:servicecatalog:" ++ b.region_name ++ ":"
      ++ b.account_id ++ ":product/" ++ fresh_product_id
    let product : Product :=
      { product_view_summary_id := fresh_summary_id,
        product_id := fresh_product_id, region := b.region_name, arn := arn,
        created_time := now, accept_language := accept_language,
        name := name, description := description, owner := owner,
        product_type := product_type, distributor := distributor,
        support_email := support_email, support_url := support_url,
        support_description := support_description,
        source_connection := source_connection,
        provisioning_artifacts := [], status := "AVAILABLE" }
    let b1 := b.tag_resource arn tags
    match product._create_provisioning_artifact templateLoader
        provisioning_artifact_parameters.Name
        provisioning_artifact_parameters.Description
        (provisioning_artifact_parameters.Type'.getD
          "CLOUD_FORMATION_TEMPLATE")
        provisioning_artifact_parameters.Info fresh_artifact_id now with
    | .error e => (b1, .error e)
    | .ok (product', provisioning_artifact) =>
      let b2 := { b1 with
        products := dinsert product'.product_id product' b1.products }
      (b2, .ok (product'.to_product_view_detail_json,
        provisioning_artifact.to_provisioning_artifact_detail_json,
        b2.get_tags arn))

/-- `ServiceCatalogBackend.create_constraint`: the `description` argument is
accepted but never forwarded to the `Constraint` constructor, whose
`description` and `owner` default to the empty string; there is no `owner`
argument at all.  No existence validation of the product or portfolio ids
happens; the call never fails.  Also returns the parameters string and the
hard-coded status `"AVAILABLE"`. -/
def Backend.create_constraint (b : Backend)
    (accept_language portfolio_id product_id parameters constraint_type
      description idempotency_token : String)
    (fresh_constraint_id : String) (now : Nat) :
    Backend × (CreateConstraintJson × String × String) :=
  let constraint : Constraint :=
    { constraint_id := fresh_constraint_id, created_time := now,
      updated_time := now, constraint_type := constraint_type,
      description := "", owner := "", product_id := product_id,
      portfolio_id := portfolio_id, parameters := parameters }
  let b1 := { b with
    constraints := dinsert constraint.constraint_id constraint b.constraints }
  (b1, (constraint.to_create_constraint_json, constraint.parameters,
    "AVAILABLE"))

/-- `ServiceCatalogBackend.associate_product_with_portfolio`: resolve both
entities by id (`NotFound` propagates, leaving the state untouched), then
idempotently link the product id into the portfolio's `product_ids`.
The mutation happens on the portfolio object stored in the map, i.e. at the
key it was retrieved under. -/
def Backend.associate_product_with_portfolio (b : Backend)
    (accept_language product_id portfolio_id source_portfolio_id : String) :
    Backend × Except ScErr Unit :=
  match b._get_product product_id "" with
  | .error e => (b, .error e)
  | .ok product =>
    match b._get_portfolio portfolio_id "" with
    | .error e => (b, .error e)
    | .ok portfolio =>
      let portfolio' := portfolio.link_product product.product_id
      ({ b with portfolios :=
          dinsert portfolio.portfolio_id portfolio' b.portfolios },
       .ok ())

/-- `ServiceCatalogBackend.provision_product`.  `stackProvisioner` stands
for the external `create_cloudformation_stack_from_template` (arguments:
stack name, template body); its failure propagates.  When
`get_provisioning_artifact` returns `None`, the next line reads
`provisioning_artifact.template`, which raises `AttributeError` on `None`.
All failure paths occur before any collection is mutated.  After the stack
call: store the new `ProvisionedProduct` (whose constructor tags its ARN),
append a `PROVISION_PRODUCT` record, then set the three last-record
pointers on the stored provisioned product. -/
def Backend.provision_product (b : Backend)
    (stackProvisioner : String → String → Except String Stack)
    (accept_language product_id product_name provisioning_artifact_id
      provisioning_artifact_name path_id path_name
      provisioned_product_name : String)
    (tags : Option (List (String × String)))
    (fresh_provisioned_product_id fresh_record_id : String) (now : Nat) :
    Backend × Except ScErr RecordDetailJson :=
  match b._get_product product_id product_name with
  | .error e => (b, .error e)
  | .ok product =>
    match product.get_provisioning_artifact provisioning_artifact_id
        provisioning_artifact_name with
    | none => (b, .error (.noneAttributeError "template"))
    | some provisioning_artifact =>
      match stackProvisioner provisioned_product_name
          provisioning_artifact.template with
      | .error msg => (b, .error (.stackProvisionerError msg))
      | .ok stack =>
        let tags' := tags.getD []
        let pp_arn := "arn:aws:servicecatalog:" ++ b.region_name ++ ":"
          ++ b.account_id ++ ":stack/" ++ provisioned_product_name ++ "/"
          ++ fresh_provisioned_product_id
        let provisioned_product : ProvisionedProduct :=
          { provisioned_product_id := fresh_provisioned_product_id,
            region := b.region_name, name := provisioned_product_name,
            arn := pp_arn, created_time := now, updated_time := now,
            accept_language := accept_language,
            record_type := "PROVISION_PRODUCT",
            product_id := product.product_id,
            provisioning_artifact_id :=
              provisioning_artifact.provisioning_artifact_id,
            path_id := "TODO: paths",
            launch_role_arn := "TODO: launch role",
            last_record_id := none, last_provisioning_record_id := none,
            last_successful_provisioning_record_id := none,
            stack_id := stack.stack_id,
            stack_outputs := stack.stack_outputs, status := "SUCCEEDED" }
        let b1 := b.tag_resource pp_arn tags'
        let pps1 := dinsert provisioned_product.provisioned_product_id
          provisioned_product b1.provisioned_products
        let b2 := { b1 with provisioned_products := pps1 }
        let record : Record :=
          { record_id := fresh_record_id, region := b.region_name,
            created_time := now, updated_time := now,
            product_id := product.product_id,
            provisioned_product_id :=
              provisioned_product.provisioned_product_id,
            path_id := "",
            provisioned_product_name := provisioned_product_name,
            provisioned_product_type := "CFN_STACK",
            provisioning_artifact_id :=
              provisioning_artifact.provisioning_artifact_id,
            record_type := "PROVISION_PRODUCT", record_errors := [],
            record_tags := [], status := "CREATED",
            arn := "arn:aws:servicecatalog:" ++ b.region_name
              ++ "::record/" ++ fresh_record_id }
        let b3 := { b2 with
          records := dinsert record.record_id record b2.records }
        let provisioned_product' := { provisioned_product with
          last_record_id := some record.record_id,
          last_successful_provisioning_record_id := some record.record_id,
          last_provisioning_record_id := some record.record_id }
        let pps2 := dinsert provisioned_product.provisioned_product_id
          provisioned_product' b3.provisioned_products
        let b4 := { b3 with provisioned_products := pps2 }
        (b4, .ok record.to_record_detail_json)

/-- `ServiceCatalogBackend.terminate_provisioned_product`: subscript lookup
(`KeyError` if absent), append a `TERMINATE_PROVISIONED_PRODUCT` record,
update the three last-record pointers on the stored provisioned product
(which stays in the collection), return the record detail. -/
def Backend.terminate_provisioned_product (b : Backend)
    (provisioned_product_name provisioned_product_id terminate_token : String)
    (ignore_errors : Bool) (accept_language : String)
    (retain_physical_resources : Bool) (fresh_record_id : String)
    (now : Nat) : Backend × Except ScErr RecordDetailJson :=
  match dget? provisioned_product_id b.provisioned_products with
  | none => (b, .error (.pyKeyError provisioned_product_id))
  | some provisioned_product =>
    let record : Record :=
      { record_id := fresh_record_id, region := b.region_name,
        created_time := now, updated_time := now,
        product_id := provisioned_product.product_id,
        provisioned_product_id :=
          provisioned_product.provisioned_product_id,
        path_id := "",
        provisioned_product_name := provisioned_product.name,
        provisioned_product_type := "CFN_STACK",
        provisioning_artifact_id :=
          provisioned_product.provisioning_artifact_id,
        record_type := "TERMINATE_PROVISIONED_PRODUCT",
        record_errors := [], record_tags := [], status := "CREATED",
        arn := "arn:aws:servicecatalog:" ++ b.region_name ++ "::record/"
          ++ fresh_record_id }
    let b1 := { b with
      records := dinsert record.record_id record b.records }
    let provisioned_product' := { provisioned_product with
      last_record_id := some record.record_id,
      last_successful_provisioning_record_id := some record.record_id,
      last_provisioning_record_id := some record.record_id }
    let pps1 := dinsert provisioned_product_id provisioned_product'
      b1.provisioned_products
    let b2 := { b1 with provisioned_products := pps1 }
    (b2, .ok record.to_record_detail_json)

/-- `ServiceCatalogBackend.describe_provisioned_product`: resolve by id or
name, project with `include_tags=False`; `cloud_watch_dashboards` is the
constant `None`. -/
def Backend.describe_provisioned_product (b : Backend)
    (accept_language identifier name : String) :
    Except ScErr (ProvisionedProductDetailJson × Option String) :=
  match b._get_provisioned_product identifier name with
  | .error e => .error e
  | .ok provisioned_product =>
    .ok (provisioned_product.to_provisioned_product_detail_json b false,
      none)

/-- `ServiceCatalogBackend.get_last_record_for_provisioned_product`: scan
`records` in reverse insertion order, return the first whose
`provisioned_product_id` matches; otherwise `raise Exception("TODO")`. -/
def Backend.get_last_record_for_provisioned_product (b : Backend)
    (provisioned_product_id : String) : Except ScErr Record :=
  match b.records.reverse.find?
      (fun kv => kv.2.provisioned_product_id == provisioned_product_id) with
  | some kv => .ok kv.2
  | none => .error .todoException

/-- `ServiceCatalogBackend.get_constraint_by`: first constraint (in
insertion order) matching both the product id and the portfolio id,
else `None`. -/
def Backend.get_constraint_by (b : Backend)
    (product_id portfolio_id : String) : Option Constraint :=
  match b.constraints.find? (fun kv =>
      kv.2.product_id == product_id && kv.2.portfolio_id == portfolio_id) with
  | some kv => some kv.2
  | none => none

/-- `ServiceCatalogBackend.list_launch_paths`: resolve the product, then
emit one summary per portfolio in the registry (insertion order); a
constraint summary is attached only when the portfolio's `product_ids`
contains the product and `get_constraint_by` finds a matching constraint. -/
def Backend.list_launch_paths (b : Backend)
    (accept_language product_id page_token : String) :
    Except ScErr (List LaunchPathSummaryJson × Option String) :=
  match b._get_product product_id "" with
  | .error e => .error e
  | .ok product =>
    let launch_path_summaries := b.portfolios.map (fun kv =>
      let portfolio := kv.2
      let constraint_summaries :=
        if product.product_id ∈ portfolio.product_ids then
          match b.get_constraint_by product.product_id kv.1 with
          | some constraint => [constraint.to_summary_json]
          | none => []
        else []
      ({ Id := portfolio.launch_path.path_id,
         Name := portfolio.display_name,
         ConstraintSummaries := constraint_summaries }
       : LaunchPathSummaryJson))
    .ok (launch_path_summaries, none)


/-! ### Concrete example states, used by counterexamples and witnesses -/

/-- A freshly constructed backend (`ServiceCatalogBackend.__init__`). -/
def emptyB : Backend :=
  { region_name := "us-east-1", account_id := "123456789012",
    portfolios := [], products := [], provisioned_products := [],
    records := [], constraints := [], tagger := [] }

/-- A portfolio whose `product_ids` is empty. -/
def exPortfolio : Portfolio :=
  { portfolio_id := "port-aaaaaaaaaaaa", region := "us-east-1",
    arn := "arn:aws:servicecatalog:us-east-1:123456789012:portfolio/port-aaaaaaaaaaaa",
    created_date := 0, accept_language := "en", display_name := "P1",
    description := "", provider_name := "prov", idempotency_token := "",
    product_ids := [],
    launch_path :=
      { path_id := "lpv3-aaaaaaaaaaaa", created_time := 0,
        updated_time := 0, name := "LP?" } }

def exArtifact : ProvisioningArtifact :=
  { provisioning_artifact_id := "pa-aaaaaaaaaaaa", region := "us-east-1",
    active := true, created_date := 0, description := some "v1",
    guidance := "DEFAULT", name := "v1", source_revision := "",
    artifact_type := "CLOUD_FORMATION_TEMPLATE", template := "tmpl" }

/-- A product owning one provisioning artifact. -/
def exProduct : Product :=
  { product_view_summary_id := "prodview-aaaaaaaaaaaa",
    product_id := "prod-xxxxxxxxxxxx", region := "us-east-1",
    arn := "arn:aws:servicecatalog:us-east-1:123456789012:product/prod-xxxxxxxxxxxx",
    created_time := 0, accept_language := "en", name := "Widget",
    description := "", owner := "me",
    product_type := "CLOUD_FORMATION_TEMPLATE", distributor := "",
    support_email := "", support_url := "", support_description := "",
    source_connection := "",
    provisioning_artifacts := [("pa-aaaaaaaaaaaa", exArtifact)],
    status := "AVAILABLE" }

/-- Backend holding `exPortfolio` (which does not link `exProduct`) and
`exProduct`. -/
def exB : Backend :=
  { region_name := "us-east-1", account_id := "123456789012",
    portfolios := [("port-aaaaaaaaaaaa", exPortfolio)],
    products := [("prod-xxxxxxxxxxxx", exProduct)],
    provisioned_products := [], records := [], constraints := [],
    tagger := [] }

def exConstraint : Constraint :=
  { constraint_id := "cons-aaaaaaaaaaaa", created_time := 0,
    updated_time := 0, constraint_type := "LAUNCH", description := "",
    owner := "", product_id := "prod-xxxxxxxxxxxx",
    portfolio_id := "port-aaaaaaaaaaaa", parameters := "" }

/-- Like `exB`, but the portfolio links the product and a LAUNCH constraint
exists for the pair. -/
def exBLinked : Backend :=
  { exB with
    portfolios :=
      [("port-aaaaaaaaaaaa",
        { exPortfolio with product_ids := ["prod-xxxxxxxxxxxx"] })],
    constraints := [("cons-aaaaaaaaaaaa", exConstraint)] }

def exProvisionedProduct : ProvisionedProduct :=
  { provisioned_product_id := "pp-aaaaaaaaaaaa", region := "us-east-1",
    name := "widget-1",
    arn := "arn:aws:servicecatalog:us-east-1:123456789012:stack/widget-1/pp-aaaaaaaaaaaa",
    created_time := 0, updated_time := 0, accept_language := "en",
    record_type := "PROVISION_PRODUCT", product_id := "prod-xxxxxxxxxxxx",
    provisioning_artifact_id := "pa-aaaaaaaaaaaa",
    path_id := "TODO: paths", launch_role_arn := "TODO: launch role",
    last_record_id := some "rec-aaaaaaaaaaaa",
    last_provisioning_record_id := some "rec-aaaaaaaaaaaa",
    last_successful_provisioning_record_id := some "rec-aaaaaaaaaaaa",
    stack_id := "stack-1", stack_outputs := [], status := "SUCCEEDED" }

def exRecord (rid : String) : Record :=
  { record_id := rid, region := "us-east-1", created_time := 0,
    updated_time := 0, product_id := "prod-xxxxxxxxxxxx",
    provisioned_product_id := "pp-aaaaaaaaaaaa", path_id := "",
    provisioned_product_name := "widget-1",
    provisioned_product_type := "CFN_STACK",
    provisioning_artifact_id := "pa-aaaaaaaaaaaa",
    record_type := "PROVISION_PRODUCT", record_errors := [],
    record_tags := [], status := "CREATED",
    arn := "arn:aws:servicecatalog:us-east-1::record/" ++ rid }

/-- Backend with one provisioned product and two records referencing it. -/
def exBRec : Backend :=
  { exB with
    provisioned_products := [("pp-aaaaaaaaaaaa", exProvisionedProduct)],
    records := [("rec-oldoldoldold", exRecord "rec-oldoldoldold"),
                ("rec-aaaaaaaaaaaa", exRecord "rec-aaaaaaaaaaaa")] }

/-! ### Association-list and list lemmas -/

theorem find?_map_update {α : Type} (k : String) (v : α)
    (l : List (String × α)) (h : hasKey k l = true) :
    (l.map (fun kv => if kv.1 == k then (k, v) else kv)).find?
      (fun kv => kv.1 == k) = some (k, v) := by
  induction l with
  | nil => simp [hasKey] at h
  | cons a t ih =>
    rw [List.map_cons]
    by_cases ha : (a.1 == k) = true
    · rw [if_pos ha, List.find?_cons_of_pos _ (by simp)]
    · have ha' : (a.1 == k) = false := by simpa using ha
      have ht : hasKey k t = true := by
        simpa [hasKey, ha'] using h
      rw [if_neg (by simp [ha']), List.find?_cons_of_neg _ (by simp [ha']),
        ih ht]

theorem find?_none_of_not_hasKey {α : Type} (k : String)
    (l : List (String × α)) (h : hasKey k l = false) :
    l.find? (fun kv => kv.1 == k) = none := by
  rw [List.find?_eq_none]
  intro kv hm hp
  have hany : l.any (fun kv => kv.1 == k) = true :=
    List.any_eq_true.mpr ⟨kv, hm, hp⟩
  rw [hasKey] at h
  rw [hany] at h
  exact Bool.noConfusion h

theorem dget?_dinsert_self {α : Type} (k : String) (v : α)
    (l : List (String × α)) : dget? k (dinsert k v l) = some v := by
  unfold dget? dinsert
  by_cases h : hasKey k l = true
  · rw [if_pos h, find?_map_update k v l h]
    rfl
  · have h' : hasKey k l = false := by simpa using h
    rw [if_neg (by simp [h']), List.find?_append,
      find?_none_of_not_hasKey k l h']
    simp

theorem dinsert_of_not_hasKey {α : Type} (k : String) (v : α)
    (l : List (String × α)) (h : hasKey k l = false) :
    dinsert k v l = l ++ [(k, v)] := by
  unfold dinsert
  rw [if_neg (by simp [h])]

theorem hasKey_of_dget? {α : Type} (k : String) (v : α)
    (l : List (String × α)) (h : dget? k l = some v) :
    hasKey k l = true := by
  unfold dget? at h
  cases hf : l.find? (fun kv => kv.1 == k) with
  | none => rw [hf] at h; simp at h
  | some kv =>
    have hp := List.find?_some hf
    have hm := List.mem_of_find?_eq_some hf
    exact List.any_eq_true.mpr ⟨kv, hm, hp⟩

theorem length_dinsert_of_hasKey {α : Type} (k : String) (v : α)
    (l : List (String × α)) (h : hasKey k l = true) :
    (dinsert k v l).length = l.length := by
  unfold dinsert
  rw [if_pos h, List.length_map]

theorem dinsert_eq_map_of_hasKey {α : Type} (k : String) (v : α)
    (l : List (String × α)) (h : hasKey k l = true) :
    dinsert k v l = l.map (fun kv => if kv.1 == k then (k, v) else kv) := by
  unfold dinsert
  rw [if_pos h]

theorem dinsert_dinsert_self {α : Type} (k : String) (v : α)
    (l : List (String × α)) :
    dinsert k v (dinsert k v l) = dinsert k v l := by
  have h2 : hasKey k (dinsert k v l) = true :=
    hasKey_of_dget? k v _ (dget?_dinsert_self k v l)
  rw [dinsert_eq_map_of_hasKey k v _ h2]
  by_cases h : hasKey k l = true
  · rw [dinsert_eq_map_of_hasKey k v l h, List.map_map]
    apply List.map_congr_left
    intro kv _
    by_cases hk : kv.1 = k
    · simp [hk]
    · simp [hk]
  · have h' : hasKey k l = false := by simpa using h
    rw [dinsert_of_not_hasKey k v l h', List.map_append]
    have hl : l.map (fun kv => if kv.1 == k then (k, v) else kv) = l := by
      conv_rhs => rw [← List.map_id l]
      apply List.map_congr_left
      intro kv hm
      have hk : (kv.1 == k) = false := by
        by_contra hc
        have hc' : (kv.1 == k) = true := by simpa using hc
        have hany : l.any (fun kv => kv.1 == k) = true :=
          List.any_eq_true.mpr ⟨kv, hm, hc'⟩
        rw [hasKey] at h'
        rw [hany] at h'
        exact Bool.noConfusion h'
      simp [hk]
    rw [hl]
    simp

theorem getLast?_cons_or {α : Type} (a : α) (l : List α) :
    (a :: l).getLast? = l.getLast?.or (some a) := by
  induction l generalizing a with
  | nil => rfl
  | cons b t ih =>
    rw [List.getLast?_cons_cons, ih b]
    cases h : t.getLast? <;> simp [ih b, h]

theorem find?_reverse_eq_getLast?_filter {α : Type} (p : α → Bool)
    (l : List α) : l.reverse.find? p = (l.filter p).getLast? := by
  induction l with
  | nil => rfl
  | cons a t ih =>
    rw [List.reverse_cons, List.find?_append, ih, List.filter_cons]
    by_cases h : p a
    · simp [h, getLast?_cons_or]
    · simp [h]

theorem find?_eq_head?_filter {α : Type} (p : α → Bool) (l : List α) :
    l.find? p = (l.filter p).head? := by
  induction l with
  | nil => rfl
  | cons a t ih =>
    rw [List.filter_cons]
    by_cases h : p a
    · rw [List.find?_cons_of_pos _ h]
      simp [h]
    · have h' : p a = false := by simpa using h
      rw [List.find?_cons_of_neg _ (by simp [h']), ih]
      simp [h']



/-- C4 (code bug): when the Info payload has no LoadTemplateFromURL key,
`_create_provisioning_artifact` only warns, leaving the local `template`
unassigned, and the `ProvisioningArtifact(...)` call then raises
`UnboundLocalError`; so `create_product` crashes instead of creating the
product with an empty template body as the claim states.  Evaluated at a
concrete failing input: the products map is unchanged (the tag store had
already been written by the `Product` constructor, as in the source). -/
theorem create_product_without_url_source_crashes :
    emptyB.create_product (fun _ => "tmpl") "en" "Widget" "me" "" "" "" ""
        "" "CLOUD_FORMATION_TEMPLATE" []
        { Name := "v1", Description := none, Type' := none, Info := [] }
        "" "" "prodview-bbbbbbbbbbbb" "prod-bbbbbbbbbbbb" "pa-bbbbbbbbbbbb" 0
      = ({ emptyB with
            tagger := [("arn:aws:servicecatalog:us-east-1:123456789012:product/prod-bbbbbbbbbbbb", [])] },
         Except.error (ScErr.unboundLocalError "template")) := by
  rfl

/-- C5 (code bug): when neither the supplied artifact id nor the artifact
name matches, `get_provisioning_artifact` returns `None` and
`provision_product` immediately dereferences it
(`provisioning_artifact.template`), raising `AttributeError` instead of the
NotFound error the claim requires; the registry state is unchanged.
Evaluated at a concrete failing input. -/
theorem provision_product_unresolved_artifact_crashes :
    exB.provision_product (fun _ _ => Except.ok { stack_id := "s", stack_outputs := [] })
        "en" "prod-xxxxxxxxxxxx" "" "pa-zzzzzzzzzzzz" "no-such-artifact"
        "" "" "widget-1" none "pp-bbbbbbbbbbbb" "rec-bbbbbbbbbbbb" 0
      = (exB, Except.error (ScErr.noneAttributeError "template")) := by
  rfl

/-- C2 counterexample: a registry whose single portfolio does not link the
product.  The claim predicts no entry for such a portfolio, but
`list_launch_paths` still returns one entry for it (the loop appends a
summary for every portfolio, the membership test only gates the constraint
lookup). -/
theorem list_launch_paths_counterexample :
    exB.list_launch_paths "en" "prod-xxxxxxxxxxxx" ""
        = Except.ok
            ([{ Id := "lpv3-aaaaaaaaaaaa", Name := "P1",
                ConstraintSummaries := [] }], none)
      ∧ exB.portfolios.filter
          (fun kv => kv.2.product_ids.contains "prod-xxxxxxxxxxxx") = [] := by
  constructor
  · rfl
  · rfl

/-- C6 counterexample: a failed product resolution by identifier and one by
name produce identical `ProductNotFound` payloads, so the product error
cannot carry which of identifier/name was used, contrary to the claim. -/
theorem product_not_found_payload_counterexample :
    emptyB._get_product "deadbeef" "" = Except.error (ScErr.productNotFound "deadbeef")
    ∧ emptyB._get_product "" "deadbeef" = Except.error (ScErr.productNotFound "deadbeef") := by
  exact ⟨rfl, rfl⟩

/-- C1: for every backend state and every provision request, if the Stack
Provisioner call fails for the requested stack name, then
`provision_product` fails and the backend is returned unchanged: no
ProvisionedProduct and no Record is persisted (every failure path sits
before the first mutation). -/
theorem provision_product_stack_failure_is_atomic (b : Backend)
    (stackProvisioner : String → String → Except String Stack)
    (accept_language product_id product_name provisioning_artifact_id
      provisioning_artifact_name path_id path_name
      provisioned_product_name : String)
    (tags : Option (List (String × String)))
    (fresh_provisioned_product_id fresh_record_id : String) (now : Nat)
    (hfail : ∀ template, ∃ msg,
      stackProvisioner provisioned_product_name template = Except.error msg) :
    ∃ e, b.provision_product stackProvisioner accept_language product_id
        product_name provisioning_artifact_id provisioning_artifact_name
        path_id path_name provisioned_product_name tags
        fresh_provisioned_product_id fresh_record_id now
      = (b, Except.error e) := by
  unfold Backend.provision_product
  rcases hp : b._get_product product_id product_name with e | product
  · simp only [hp]
    exact ⟨e, rfl⟩
  · simp only [hp]
    rcases ha : product.get_provisioning_artifact provisioning_artifact_id
        provisioning_artifact_name with _ | artifact
    · simp only [ha]
      exact ⟨ScErr.noneAttributeError "template", rfl⟩
    · obtain ⟨msg, hmsg⟩ := hfail artifact.template
      simp only [ha, hmsg]
      exact ⟨ScErr.stackProvisionerError msg, rfl⟩

/-- Witness for C1 at a concrete backend and an always-failing
provisioner. -/
theorem provision_product_stack_failure_is_atomic_witness :
    ∃ e, exB.provision_product (fun _ _ => Except.error "stack failure")
        "en" "prod-xxxxxxxxxxxx" "" "pa-aaaaaaaaaaaa" "" "" "" "widget-1"
        none "pp-bbbbbbbbbbbb" "rec-bbbbbbbbbbbb" 0
      = (exB, Except.error e) :=
  provision_product_stack_failure_is_atomic exB
    (fun _ _ => Except.error "stack failure") "en" "prod-xxxxxxxxxxxx" ""
    "pa-aaaaaaaaaaaa" "" "" "" "widget-1" none "pp-bbbbbbbbbbbb"
    "rec-bbbbbbbbbbbb" 0 (fun _ => ⟨"stack failure", rfl⟩)


/-- helper: linking makes the product id a member -/
theorem Portfolio.mem_link_product (p : Portfolio) (product_id : String) :
    product_id ∈ (p.link_product product_id).product_ids := by
  unfold Portfolio.link_product
  by_cases h : product_id ∈ p.product_ids
  · rw [if_pos h]; exact h
  · rw [if_neg h]; simp

theorem Portfolio.link_product_id (p : Portfolio) (product_id : String) :
    (p.link_product product_id).portfolio_id = p.portfolio_id := by
  unfold Portfolio.link_product
  by_cases h : product_id ∈ p.product_ids
  · rw [if_pos h]
  · rw [if_neg h]

theorem Portfolio.link_product_of_mem (p : Portfolio) (product_id : String)
    (h : product_id ∈ p.product_ids) :
    p.link_product product_id = p := by
  unfold Portfolio.link_product
  rw [if_pos h]

theorem Portfolio.count_link_product (p : Portfolio) (product_id : String)
    (h : p.product_ids.count product_id ≤ 1) :
    (p.link_product product_id).product_ids.count product_id = 1 := by
  unfold Portfolio.link_product
  by_cases hm : product_id ∈ p.product_ids
  · rw [if_pos hm]
    have hpos : 0 < p.product_ids.count product_id := List.count_pos_iff.mpr hm
    omega
  · rw [if_neg hm]
    simp [List.count_append, List.count_eq_zero.mpr hm]

/-- C10: `create_constraint` accepts a description argument but never
forwards it (and has no owner argument at all); the stored Constraint and
the returned constraint detail always carry empty Description and Owner,
regardless of what the caller supplied. -/
theorem create_constraint_blanks_description_and_owner (b : Backend)
    (accept_language portfolio_id product_id parameters constraint_type
      description idempotency_token fresh_constraint_id : String)
    (now : Nat) :
    ((b.create_constraint accept_language portfolio_id product_id parameters
        constraint_type description idempotency_token fresh_constraint_id
        now).2.1.Description = ""
      ∧ (b.create_constraint accept_language portfolio_id product_id
          parameters constraint_type description idempotency_token
          fresh_constraint_id now).2.1.Owner = "")
    ∧ ∃ c, dget? fresh_constraint_id
          (b.create_constraint accept_language portfolio_id product_id
            parameters constraint_type description idempotency_token
            fresh_constraint_id now).1.constraints = some c
        ∧ c.description = "" ∧ c.owner = "" := by
  refine ⟨⟨rfl, rfl⟩, ?_⟩
  refine ⟨{ constraint_id := fresh_constraint_id, created_time := now,
            updated_time := now, constraint_type := constraint_type,
            description := "", owner := "", product_id := product_id,
            portfolio_id := portfolio_id, parameters := parameters },
          ?_, rfl, rfl⟩
  exact dget?_dinsert_self _ _ _

/-- C7: whenever at least one record references the provisioned product id,
`get_last_record_for_provisioned_product` returns the last matching record
in insertion order of the records collection (the most recently created
one). -/
theorem get_last_record_returns_last_matching (b : Backend)
    (provisioned_product_id : String)
    (h : ∃ kv ∈ b.records,
      kv.2.provisioned_product_id = provisioned_product_id) :
    ∃ kv, (b.records.filter (fun kv =>
          kv.2.provisioned_product_id == provisioned_product_id)).getLast?
        = some kv
      ∧ b.get_last_record_for_provisioned_product provisioned_product_id
        = Except.ok kv.2 := by
  have hne : b.records.filter (fun kv =>
      kv.2.provisioned_product_id == provisioned_product_id) ≠ [] := by
    obtain ⟨kv, hm, he⟩ := h
    intro hnil
    have hmem : kv ∈ b.records.filter (fun kv =>
        kv.2.provisioned_product_id == provisioned_product_id) :=
      List.mem_filter.mpr ⟨hm, by simp [he]⟩
    rw [hnil] at hmem
    simp at hmem
  obtain ⟨kv0, hkv0⟩ :=
    Option.isSome_iff_exists.mp (List.getLast?_isSome.mpr hne)
  refine ⟨kv0, hkv0, ?_⟩
  unfold Backend.get_last_record_for_provisioned_product
  rw [find?_reverse_eq_getLast?_filter, hkv0]

/-- Witness for C7: on a backend with two records for the same provisioned
product, the later one is returned. -/
theorem get_last_record_returns_last_matching_witness :
    ∃ kv, (exBRec.records.filter (fun kv =>
          kv.2.provisioned_product_id == "pp-aaaaaaaaaaaa")).getLast?
        = some kv
      ∧ exBRec.get_last_record_for_provisioned_product "pp-aaaaaaaaaaaa"
        = Except.ok kv.2 :=
  get_last_record_returns_last_matching exBRec "pp-aaaaaaaaaaaa"
    ⟨("rec-aaaaaaaaaaaa", exRecord "rec-aaaaaaaaaaaa"), by decide, rfl⟩

/-- C9: `associate_product_with_portfolio` is idempotent — calling it a
second time with the same (product, portfolio) pair leaves the backend
exactly as after the first call, and the portfolio linked-product list then
contains exactly one occurrence of the product id (given the invariant that
it held at most one before). -/
theorem associate_product_with_portfolio_idempotent (b : Backend)
    (accept_language product_id portfolio_id source_portfolio_id : String)
    (product : Product) (portfolio : Portfolio)
    (hprod : dget? product_id b.products = some product)
    (hprodid : product.product_id = product_id)
    (hpf : dget? portfolio_id b.portfolios = some portfolio)
    (hpfid : portfolio.portfolio_id = portfolio_id)
    (hcount : portfolio.product_ids.count product_id ≤ 1) :
    (((b.associate_product_with_portfolio accept_language product_id
          portfolio_id source_portfolio_id).1).associate_product_with_portfolio
          accept_language product_id portfolio_id source_portfolio_id).1
      = (b.associate_product_with_portfolio accept_language product_id
          portfolio_id source_portfolio_id).1
    ∧ ∃ portfolio', dget? portfolio_id
          ((b.associate_product_with_portfolio accept_language product_id
            portfolio_id source_portfolio_id).1).portfolios
          = some portfolio'
        ∧ portfolio'.product_ids.count product_id = 1 := by
  have hres1 : b._get_product product_id "" = Except.ok product := by
    unfold Backend._get_product
    simp only [hprod]
  have hres2 : b._get_portfolio portfolio_id "" = Except.ok portfolio := by
    unfold Backend._get_portfolio
    simp only [hpf]
  set pf1 := portfolio.link_product product.product_id with hpf1
  set b1 : Backend :=
    { b with
      portfolios := dinsert portfolio.portfolio_id pf1 b.portfolios }
    with hb1
  have h1 : b.associate_product_with_portfolio accept_language product_id
      portfolio_id source_portfolio_id = (b1, Except.ok ()) := by
    unfold Backend.associate_product_with_portfolio
    simp only [hres1, hres2]
  have hget1 : dget? portfolio_id b1.portfolios = some pf1 := by
    rw [hb1]
    show dget? portfolio_id (dinsert portfolio.portfolio_id pf1 b.portfolios)
      = some pf1
    rw [hpfid]
    exact dget?_dinsert_self _ _ _
  have hres1' : b1._get_product product_id "" = Except.ok product := by
    unfold Backend._get_product
    rw [hb1]
    simp only [hprod]
  have hres2' : b1._get_portfolio portfolio_id "" = Except.ok pf1 := by
    unfold Backend._get_portfolio
    simp only [hget1]
  have hmem1 : product.product_id ∈ pf1.product_ids := by
    rw [hpf1]
    exact Portfolio.mem_link_product portfolio product.product_id
  have hlink2 : pf1.link_product product.product_id = pf1 :=
    Portfolio.link_product_of_mem _ _ hmem1
  have h2 : b1.associate_product_with_portfolio accept_language product_id
      portfolio_id source_portfolio_id
      = ({ b1 with
            portfolios := dinsert pf1.portfolio_id pf1 b1.portfolios },
         Except.ok ()) := by
    unfold Backend.associate_product_with_portfolio
    simp only [hres1', hres2', hlink2]
  have hsame : dinsert pf1.portfolio_id pf1 b1.portfolios = b1.portfolios := by
    rw [hb1]
    show dinsert pf1.portfolio_id pf1
        (dinsert portfolio.portfolio_id pf1 b.portfolios)
      = dinsert portfolio.portfolio_id pf1 b.portfolios
    rw [show pf1.portfolio_id = portfolio.portfolio_id from
      Portfolio.link_product_id _ _]
    exact dinsert_dinsert_self _ _ _
  constructor
  · rw [h1]
    show (b1.associate_product_with_portfolio accept_language product_id
        portfolio_id source_portfolio_id).1 = b1
    rw [h2]
    show ({ b1 with
            portfolios := dinsert pf1.portfolio_id pf1 b1.portfolios }
      : Backend) = b1
    rw [hsame]
  · rw [h1]
    refine ⟨pf1, hget1, ?_⟩
    rw [hpf1, ← hprodid]
    exact Portfolio.count_link_product portfolio product.product_id
      (by rw [hprodid]; exact hcount)


/-- C2 (amended): `list_launch_paths` returns exactly one entry per
portfolio in the registry — including portfolios that do not link the
product — in insertion order; an entry carries exactly one constraint
summary when the portfolio links the product and some constraint (of any
type, the first matching in insertion order) matches the (product,
portfolio) pair, and zero constraint summaries otherwise. -/
theorem list_launch_paths_one_entry_per_portfolio (b : Backend)
    (accept_language product_id page_token : String) (product : Product)
    (hres : b._get_product product_id "" = Except.ok product) :
    ∃ summaries,
      b.list_launch_paths accept_language product_id page_token
        = Except.ok (summaries, none)
      ∧ summaries.length = b.portfolios.length
      ∧ List.Forall₂
          (fun (s : LaunchPathSummaryJson) (kv : String × Portfolio) =>
            s.Id = kv.2.launch_path.path_id
            ∧ s.Name = kv.2.display_name
            ∧ ((product.product_id ∈ kv.2.product_ids
                ∧ ∃ c, b.get_constraint_by product.product_id kv.1 = some c
                    ∧ s.ConstraintSummaries = [c.to_summary_json])
               ∨ (s.ConstraintSummaries = []
                  ∧ (product.product_id ∉ kv.2.product_ids
                     ∨ b.get_constraint_by product.product_id kv.1 = none))))
          summaries b.portfolios := by
  unfold Backend.list_launch_paths
  simp only [hres]
  refine ⟨_, rfl, List.length_map _ _, ?_⟩
  rw [List.forall₂_map_left_iff, List.forall₂_same]
  intro kv hm
  refine ⟨rfl, rfl, ?_⟩
  by_cases hmem : product.product_id ∈ kv.2.product_ids
  · rcases hc : b.get_constraint_by product.product_id kv.1 with _ | c
    · right
      refine ⟨?_, Or.inr rfl⟩
      simp [hmem]
    · left
      refine ⟨hmem, c, rfl, ?_⟩
      simp [hmem]
  · right
    refine ⟨?_, Or.inl hmem⟩
    simp [hmem]

/-- Witness for the amended C2 on a backend whose portfolio links the
product and has a LAUNCH constraint. -/
theorem list_launch_paths_one_entry_per_portfolio_witness :
    ∃ summaries,
      exBLinked.list_launch_paths "en" "prod-xxxxxxxxxxxx" ""
        = Except.ok (summaries, none)
      ∧ summaries.length = exBLinked.portfolios.length
      ∧ List.Forall₂
          (fun (s : LaunchPathSummaryJson) (kv : String × Portfolio) =>
            s.Id = kv.2.launch_path.path_id
            ∧ s.Name = kv.2.display_name
            ∧ ((exProduct.product_id ∈ kv.2.product_ids
                ∧ ∃ c, exBLinked.get_constraint_by exProduct.product_id kv.1
                      = some c
                    ∧ s.ConstraintSummaries = [c.to_summary_json])
               ∨ (s.ConstraintSummaries = []
                  ∧ (exProduct.product_id ∉ kv.2.product_ids
                     ∨ exBLinked.get_constraint_by exProduct.product_id kv.1
                       = none))))
          summaries exBLinked.portfolios :=
  list_launch_paths_one_entry_per_portfolio exBLinked "en"
    "prod-xxxxxxxxxxxx" "" exProduct rfl

/-- C3: when a portfolio with display name D (resp. a product with name N)
already exists, `create_portfolio` with D (resp. `create_product` with N)
fails with InvalidParameters, returns the backend unchanged, and the
original entity remains resolvable by that name.  The `hasKey ""` premises
record that no entity is stored under the empty-string key (identifiers
always carry a kind prefix). -/
theorem create_duplicate_name_fails_unchanged (b : Backend)
    (D N accept_language description provider_name owner distributor
      support_description support_email support_url product_type
      idempotency_token source_connection : String)
    (tags : List (String × String))
    (provisioning_artifact_parameters : ProvisioningArtifactParameters)
    (templateLoader : String → String)
    (fresh1 fresh2 fresh3 fresh4 fresh5 : String) (now : Nat)
    (hD : ∃ kv ∈ b.portfolios, kv.2.display_name = D)
    (hN : ∃ kv ∈ b.products, kv.2.name = N)
    (hkP : hasKey "" b.portfolios = false)
    (hkN : hasKey "" b.products = false) :
    (b.create_portfolio accept_language D description provider_name tags
        idempotency_token fresh1 fresh2 now
      = (b, Except.error (ScErr.invalidParameters
          "Portfolio with this name already exists"))
     ∧ ∃ portfolio, b._get_portfolio "" D = Except.ok portfolio
         ∧ portfolio.display_name = D)
    ∧ (b.create_product templateLoader accept_language N owner description
        distributor support_description support_email support_url
        product_type tags provisioning_artifact_parameters
        idempotency_token source_connection fresh3 fresh4 fresh5 now
      = (b, Except.error (ScErr.invalidParameters
          "Product with this name already exists"))
     ∧ ∃ product, b._get_product "" N = Except.ok product
         ∧ product.name = N) := by
  have hdgP : dget? "" b.portfolios = none := by
    unfold dget?
    rw [find?_none_of_not_hasKey "" b.portfolios hkP]
    rfl
  have hdgN : dget? "" b.products = none := by
    unfold dget?
    rw [find?_none_of_not_hasKey "" b.products hkN]
    rfl
  have hfP : (b.portfolios.find?
      (fun kv => kv.2.display_name == D)).isSome := by
    rw [List.find?_isSome]
    obtain ⟨kv, hm, he⟩ := hD
    exact ⟨kv, hm, by simp [he]⟩
  have hfN : (b.products.find? (fun kv => kv.2.name == N)).isSome := by
    rw [List.find?_isSome]
    obtain ⟨kv, hm, he⟩ := hN
    exact ⟨kv, hm, by simp [he]⟩
  obtain ⟨kvP, hkvP⟩ := Option.isSome_iff_exists.mp hfP
  obtain ⟨kvN, hkvN⟩ := Option.isSome_iff_exists.mp hfN
  have hresP : b._get_portfolio "" D = Except.ok kvP.2 := by
    unfold Backend._get_portfolio
    simp only [hdgP, hkvP]
  have hresN : b._get_product "" N = Except.ok kvN.2 := by
    unfold Backend._get_product
    simp only [hdgN, hkvN]
  have hnameP : kvP.2.display_name = D := by
    have := List.find?_some hkvP
    simpa using this
  have hnameN : kvN.2.name = N := by
    have := List.find?_some hkvN
    simpa using this
  refine ⟨⟨?_, kvP.2, hresP, hnameP⟩, ?_, kvN.2, hresN, hnameN⟩
  · unfold Backend.create_portfolio
    simp only [hresP]
  · unfold Backend.create_product
    simp only [hresN]

/-- Witness for C3 at a concrete backend holding portfolio "P1" and
product "Widget". -/
theorem create_duplicate_name_fails_unchanged_witness :
    (exB.create_portfolio "en" "P1" "" "prov" [] ""
        "port-bbbbbbbbbbbb" "lpv3-bbbbbbbbbbbb" 0
      = (exB, Except.error (ScErr.invalidParameters
          "Portfolio with this name already exists"))
     ∧ ∃ portfolio, exB._get_portfolio "" "P1" = Except.ok portfolio
         ∧ portfolio.display_name = "P1")
    ∧ (exB.create_product (fun _ => "tmpl") "en" "Widget" "me" "" "" "" ""
        "" "CLOUD_FORMATION_TEMPLATE" []
        { Name := "v1", Description := none, Type' := none,
          Info := [("LoadTemplateFromURL", "s3://bucket/t")] }
        "" "" "prodview-bbbbbbbbbbbb" "prod-bbbbbbbbbbbb" "pa-bbbbbbbbbbbb" 0
      = (exB, Except.error (ScErr.invalidParameters
          "Product with this name already exists"))
     ∧ ∃ product, exB._get_product "" "Widget" = Except.ok product
         ∧ product.name = "Widget") :=
  create_duplicate_name_fails_unchanged exB "P1" "Widget" "en" "" "prov"
    "me" "" "" "" "" "CLOUD_FORMATION_TEMPLATE" "" "" []
    { Name := "v1", Description := none, Type' := none,
      Info := [("LoadTemplateFromURL", "s3://bucket/t")] }
    (fun _ => "tmpl") "port-bbbbbbbbbbbb" "lpv3-bbbbbbbbbbbb"
    "prodview-bbbbbbbbbbbb" "prod-bbbbbbbbbbbb" "pa-bbbbbbbbbbbb" 0
    ⟨("port-aaaaaaaaaaaa", exPortfolio), by decide, rfl⟩
    ⟨("prod-xxxxxxxxxxxx", exProduct), by decide, rfl⟩ rfl rfl


/-- C6 (amended): for each of the three entity kinds, resolution returns
the id-keyed entity when the identifier is a key of the kind map;
otherwise it returns the first entity in insertion order whose
name-equivalent field equals the supplied name; otherwise it fails.  The
product error carries only the identifier-or-name value (not which was
used), while the portfolio and provisioned-product errors additionally
carry the tag "Name" when a name was supplied and "Id" otherwise, paired
with the identifier-if-nonempty-else-name value. -/
theorem resolution_by_identifier_or_name (b : Backend)
    (identifier name : String) :
    (∀ product, dget? identifier b.products = some product →
        b._get_product identifier name = Except.ok product)
    ∧ (dget? identifier b.products = none →
        ((∃ kv, (b.products.filter (fun kv => kv.2.name == name)).head?
              = some kv
            ∧ b._get_product identifier name = Except.ok kv.2)
         ∨ ((b.products.filter (fun kv => kv.2.name == name)).head? = none
            ∧ b._get_product identifier name
              = Except.error
                  (ScErr.productNotFound (strOr identifier name)))))
    ∧ (∀ portfolio, dget? identifier b.portfolios = some portfolio →
        b._get_portfolio identifier name = Except.ok portfolio)
    ∧ (dget? identifier b.portfolios = none →
        ((∃ kv, (b.portfolios.filter
              (fun kv => kv.2.display_name == name)).head? = some kv
            ∧ b._get_portfolio identifier name = Except.ok kv.2)
         ∨ ((b.portfolios.filter
              (fun kv => kv.2.display_name == name)).head? = none
            ∧ b._get_portfolio identifier name
              = Except.error
                  (ScErr.portfolioNotFound (strOr identifier name)
                    (if name != "" then "Name" else "Id")))))
    ∧ (∀ provisioned_product, dget? identifier b.provisioned_products
          = some provisioned_product →
        b._get_provisioned_product identifier name
          = Except.ok provisioned_product)
    ∧ (dget? identifier b.provisioned_products = none →
        ((∃ kv, (b.provisioned_products.filter
              (fun kv => kv.2.name == name)).head? = some kv
            ∧ b._get_provisioned_product identifier name
              = Except.ok kv.2)
         ∨ ((b.provisioned_products.filter
              (fun kv => kv.2.name == name)).head? = none
            ∧ b._get_provisioned_product identifier name
              = Except.error
                  (ScErr.provisionedProductNotFound (strOr identifier name)
                    (if name != "" then "Name" else "Id"))))) := by
  refine ⟨?_, ?_, ?_, ?_, ?_, ?_⟩
  · intro product h
    unfold Backend._get_product
    simp only [h]
  · intro h
    unfold Backend._get_product
    simp only [h]
    rw [← find?_eq_head?_filter]
    rcases hf : b.products.find? (fun kv => kv.2.name == name) with _ | kv
    · right
      refine ⟨?_, ?_⟩ <;> simp only [hf]
    · left
      refine ⟨kv, ?_, ?_⟩ <;> simp only [hf]
  · intro portfolio h
    unfold Backend._get_portfolio
    simp only [h]
  · intro h
    unfold Backend._get_portfolio
    simp only [h]
    rw [← find?_eq_head?_filter]
    rcases hf : b.portfolios.find? (fun kv => kv.2.display_name == name)
      with _ | kv
    · right
      refine ⟨?_, ?_⟩ <;> simp only [hf]
    · left
      refine ⟨kv, ?_, ?_⟩ <;> simp only [hf]
  · intro provisioned_product h
    unfold Backend._get_provisioned_product
    simp only [h]
  · intro h
    unfold Backend._get_provisioned_product
    simp only [h]
    rw [← find?_eq_head?_filter]
    rcases hf : b.provisioned_products.find? (fun kv => kv.2.name == name)
      with _ | kv
    · right
      refine ⟨?_, ?_⟩ <;> simp only [hf]
    · left
      refine ⟨kv, ?_, ?_⟩ <;> simp only [hf]

/-- Witness for the amended C6: id-keyed resolution at a concrete
backend. -/
theorem resolution_by_identifier_or_name_witness :
    exB._get_product "prod-xxxxxxxxxxxx" "" = Except.ok exProduct
    ∧ exB._get_portfolio "port-aaaaaaaaaaaa" "" = Except.ok exPortfolio :=
  ⟨(resolution_by_identifier_or_name exB "prod-xxxxxxxxxxxx" "").1
      exProduct rfl,
   (resolution_by_identifier_or_name exB "port-aaaaaaaaaaaa" "").2.2.1
      exPortfolio rfl⟩

/-- C8: `terminate_provisioned_product` on an existing provisioned product
appends exactly one new TERMINATE_PROVISIONED_PRODUCT record under the
fresh record id, does not remove the provisioned product from its
collection, and a subsequent `describe_provisioned_product` still resolves
with Status "AVAILABLE" and all three last-record pointers equal to the
termination record id. -/
theorem terminate_keeps_provisioned_product (b : Backend)
    (provisioned_product_name provisioned_product_id terminate_token
      accept_language : String)
    (ignore_errors retain_physical_resources : Bool)
    (fresh_record_id : String) (now : Nat) (pp : ProvisionedProduct)
    (hpp : dget? provisioned_product_id b.provisioned_products = some pp)
    (hfresh : hasKey fresh_record_id b.records = false) :
    ∃ record : Record,
      (b.terminate_provisioned_product provisioned_product_name
          provisioned_product_id terminate_token ignore_errors
          accept_language retain_physical_resources fresh_record_id
          now).1.records = b.records ++ [(fresh_record_id, record)]
      ∧ record.record_type = "TERMINATE_PROVISIONED_PRODUCT"
      ∧ record.record_id = fresh_record_id
      ∧ (b.terminate_provisioned_product provisioned_product_name
          provisioned_product_id terminate_token ignore_errors
          accept_language retain_physical_resources fresh_record_id
          now).1.provisioned_products.length
        = b.provisioned_products.length
      ∧ (∃ pp', dget? provisioned_product_id
          (b.terminate_provisioned_product provisioned_product_name
            provisioned_product_id terminate_token ignore_errors
            accept_language retain_physical_resources fresh_record_id
            now).1.provisioned_products = some pp')
      ∧ ∃ detail,
          ((b.terminate_provisioned_product provisioned_product_name
              provisioned_product_id terminate_token ignore_errors
              accept_language retain_physical_resources fresh_record_id
              now).1).describe_provisioned_product accept_language
              provisioned_product_id ""
            = Except.ok (detail, none)
          ∧ detail.Status = "AVAILABLE"
          ∧ detail.LastRecordId = some fresh_record_id
          ∧ detail.LastProvisioningRecordId = some fresh_record_id
          ∧ detail.LastSuccessfulProvisioningRecordId
              = some fresh_record_id := by
  have hkey : hasKey provisioned_product_id b.provisioned_products = true :=
    hasKey_of_dget? _ pp _ hpp
  unfold Backend.terminate_provisioned_product
  simp only [hpp]
  refine ⟨{ record_id := fresh_record_id, region := b.region_name,
            created_time := now, updated_time := now,
            product_id := pp.product_id,
            provisioned_product_id := pp.provisioned_product_id,
            path_id := "", provisioned_product_name := pp.name,
            provisioned_product_type := "CFN_STACK",
            provisioning_artifact_id := pp.provisioning_artifact_id,
            record_type := "TERMINATE_PROVISIONED_PRODUCT",
            record_errors := [], record_tags := [], status := "CREATED",
            arn := "arn:aws:servicecatalog:" ++ b.region_name
              ++ "::record/" ++ fresh_record_id },
          ?_, rfl, rfl, ?_, ?_, ?_⟩
  · rw [dinsert_of_not_hasKey _ _ _ hfresh]
  · exact length_dinsert_of_hasKey _ _ _ hkey
  · exact ⟨_, dget?_dinsert_self _ _ _⟩
  · refine ⟨{ Arn := pp.arn, CreatedTime := pp.created_time,
              Id := pp.provisioned_product_id, IdempotencyToken := "string",
              LastProvisioningRecordId := some fresh_record_id,
              LastRecordId := some fresh_record_id,
              LastSuccessfulProvisioningRecordId := some fresh_record_id,
              LaunchRoleArn := pp.launch_role_arn, Name := pp.name,
              ProductId := pp.product_id,
              ProvisioningArtifactId := pp.provisioning_artifact_id,
              Status := "AVAILABLE", StatusMessage := "string",
              Type' := pp.record_type, Tags := none },
            ?_, rfl, rfl, rfl, rfl⟩
    simp only [Backend.describe_provisioned_product,
      Backend._get_provisioned_product, dget?_dinsert_self,
      ProvisionedProduct.to_provisioned_product_detail_json]
    rfl


/-- Witness for C8 at a concrete backend. -/
theorem terminate_keeps_provisioned_product_witness :
    ∃ record : Record,
      (exBRec.terminate_provisioned_product "widget-1" "pp-aaaaaaaaaaaa"
          "" false "en" false "rec-cccccccccccc" 7).1.records
        = exBRec.records ++ [("rec-cccccccccccc", record)]
      ∧ record.record_type = "TERMINATE_PROVISIONED_PRODUCT"
      ∧ record.record_id = "rec-cccccccccccc"
      ∧ (exBRec.terminate_provisioned_product "widget-1" "pp-aaaaaaaaaaaa"
          "" false "en" false "rec-cccccccccccc" 7).1.provisioned_products.length
        = exBRec.provisioned_products.length
      ∧ (∃ pp', dget? "pp-aaaaaaaaaaaa"
          (exBRec.terminate_provisioned_product "widget-1" "pp-aaaaaaaaaaaa"
            "" false "en" false "rec-cccccccccccc" 7).1.provisioned_products
          = some pp')
      ∧ ∃ detail,
          ((exBRec.terminate_provisioned_product "widget-1" "pp-aaaaaaaaaaaa"
              "" false "en" false "rec-cccccccccccc" 7).1).describe_provisioned_product
              "en" "pp-aaaaaaaaaaaa" ""
            = Except.ok (detail, none)
          ∧ detail.Status = "AVAILABLE"
          ∧ detail.LastRecordId = some "rec-cccccccccccc"
          ∧ detail.LastProvisioningRecordId = some "rec-cccccccccccc"
          ∧ detail.LastSuccessfulProvisioningRecordId
              = some "rec-cccccccccccc" :=
  terminate_keeps_provisioned_product exBRec "widget-1" "pp-aaaaaaaaaaaa"
    "" "en" false false "rec-cccccccccccc" 7 exProvisionedProduct rfl
    (by decide)

/-- Witness for C9 at a concrete backend. -/
theorem associate_product_with_portfolio_idempotent_witness :
    ((exB.associate_product_with_portfolio "en" "prod-xxxxxxxxxxxx"
        "port-aaaaaaaaaaaa" "").1.associate_product_with_portfolio "en"
        "prod-xxxxxxxxxxxx" "port-aaaaaaaaaaaa" "").1
      = (exB.associate_product_with_portfolio "en" "prod-xxxxxxxxxxxx"
          "port-aaaaaaaaaaaa" "").1
    ∧ ∃ portfolio', dget? "port-aaaaaaaaaaaa"
          (exB.associate_product_with_portfolio "en" "prod-xxxxxxxxxxxx"
            "port-aaaaaaaaaaaa" "").1.portfolios = some portfolio'
        ∧ portfolio'.product_ids.count "prod-xxxxxxxxxxxx" = 1 :=
  associate_product_with_portfolio_idempotent exB "en" "prod-xxxxxxxxxxxx"
    "port-aaaaaaaaaaaa" "" exProduct exPortfolio rfl rfl rfl rfl
    (by decide)

end ServiceCatalog
